import Mathlib

/-!
Shallow embedding of the `Auto-Deploy-cli-based-tool` repository
(a Typer-based CLI that clones a repo, builds and pushes a Docker image,
applies Terraform for an ECS app and an EC2 monitoring host, configures the
host over SSH, and keeps a per-project deployment history file).

Each definition mirrors one Python function of the source; effectful code is
embedded as explicit state passing, and fallible code returns an explicit
result constructor instead of raising.
-/

namespace AutoDeploy

/-! ## Deployment ledger (`deploy_tool/core/history_manager.py`)

A deployment record is a JSON object; the code only ever treats it as an
opaque dict, so we embed it as an association list of string fields.
The per-project history file is modelled by its observable content:
missing, existing-but-not-valid-JSON, or a valid JSON list of records. -/

/-- One deployment record (a JSON object), as a field association list. -/
def Record := List (String × String)
deriving DecidableEq, Inhabited

/-- Observable content of the per-project `deployments_history.json` file. -/
inductive FileContent where
  | missing
  | corrupt (raw : String)
  | valid (records : List Record)

/-- The ledger storage: one history file per project name. -/
def LedgerStore := String → FileContent

/-- Model of `load_history` (history_manager.py, lines 18–31): a missing file yields
`[]`; a `json.JSONDecodeError` (corrupt content) is caught and yields `[]`;
otherwise the parsed list is returned.  The function is total (it returns a
list on every input and raises nothing to its caller). -/
def load_history (store : LedgerStore) (project : String) : List Record :=
  match store project with
  | .missing => []
  | .corrupt _ => []
  | .valid h => h

/-- Model of `save_history` (history_manager.py, lines 33–41): rewrites the per-project
history file with the full serialized list. -/
def save_history (store : LedgerStore) (project : String) (h : List Record) :
    LedgerStore :=
  fun p => if p = project then .valid h else store p

/-- Model of `add_deployment_record` (history_manager.py, lines 43–48): loads the
current history, appends the record in memory, and saves the whole list. -/
def add_deployment_record (store : LedgerStore) (project : String)
    (r : Record) : LedgerStore :=
  save_history store project (load_history store project ++ [r])

/-- An empty ledger storage (no project has a history file yet). -/
def emptyStore : LedgerStore := fun _ => .missing

/-! ## Revision rollback (`deploy_tool/core/rollback.py`)

`rollback_ecs_service` reads the active task definition of the service, lists the
task-definition ARNs of its family in descending recency order, and switches
the service to the ARN at index 1.  The ECS control-plane state it touches is
embedded as the active revision plus that descending ARN list; collaborator
failures (session creation, describe, update) are environment flags. -/

/-- The slice of ECS state `rollback_ecs_service` observes and mutates. -/
structure ECSState where
  /-- The currently active task-definition ARN of the service. -/
  activeRevision : String
  /-- All revisions of the family, most recent first, as
  `list_task_definitions (sort DESC)` lists them. -/
  revisionList : List String
deriving DecidableEq

/-- Outcomes of the AWS calls made by `rollback_ecs_service`. -/
structure RollbackEnv where
  /-- Whether `boto3.Session` and `session.client` succeed. -/
  sessionOk : Bool
  /-- Whether `describe_services` succeeds and finds the service. -/
  describeOk : Bool
  /-- Whether `update_service` succeeds. -/
  updateOk : Bool
  /-- the `services_stable` waiter finishes within its bounded poll; a
  timeout is only warned about and does not change the result. -/
  waiterStable : Bool

/-- Model of `rollback_ecs_service` (rollback.py, lines 7–84).  Returns the
`(current, previous)` ARN pair on success; every failure re-raises (embedded
as `.error` with the message of the echoing branch) and leaves the service
untouched.  Fewer than two listed revisions raises
`ValueError("No previous revision available for rollback.")` before any
update is attempted.  The outcome of the stability waiter is deliberately ignored
(source line 80–82: the waiter exception is swallowed). -/
def rollback_ecs_service (env : RollbackEnv) (st : ECSState) :
    Except String (String × String) × ECSState :=
  if !env.sessionOk then (.error "Failed to create AWS session", st)
  else if !env.describeOk then (.error "Failed to get current service details", st)
  else
    let current := st.activeRevision
    let arns := st.revisionList
    if arns.length < 2 then
      (.error "No previous revision available for rollback.", st)
    else
      let previous := arns.getD 1 ""
      if !env.updateOk then (.error "Failed to update ECS service", st)
      else (.ok (current, previous), { st with activeRevision := previous })

/-! ## Framework detection (`deploy_tool/core/init_logic.py`) -/

/-- What `detect_framework` observes about one `package.json` found by
`rglob`, in traversal order: whether it opens and parses, its
`dependencies` and `devDependencies` keys, and its parent directory. -/
structure PkgJson where
  /-- Whether `open` and `json.load` succeed on this file. -/
  parseOk : Bool
  deps : List String
  devDeps : List String
  /-- The value of `pkg_path.parent` as a path string. -/
  dirPath : String
  /-- The value of `pkg_path.parent.name`. -/
  dirName : String

/-- Model of `detect_framework` (init_logic.py, lines 7–35): scans the `package.json`
files in order; a file that fails to open or parse is skipped
(`except Exception: continue`); a file whose dependencies match no known
framework is also skipped (the `if/elif` chain falls through); if no file
matches, returns `("unknown", project_path, "mayur-unknown")`. -/
def detect_framework (pkgs : List PkgJson) (projectPath : String) :
    String × String × String :=
  match pkgs with
  | [] => ("unknown", projectPath, "mayur-unknown")
  | p :: rest =>
    if !p.parseOk then detect_framework rest projectPath
    else
      let name := "mayur-" ++ p.dirName
      if p.deps.contains "next" then ("nextjs", p.dirPath, name)
      else if p.deps.contains "vite" || p.devDeps.contains "vite" then
        ("vite", p.dirPath, name)
      else if p.deps.contains "react-scripts" then ("cra", p.dirPath, name)
      else if p.deps.contains "react" then ("react", p.dirPath, name)
      else detect_framework rest projectPath

/-- A parsed `package.json` matches a known framework dependency. -/
def pkgMatches (p : PkgJson) : Bool :=
  p.parseOk &&
    (p.deps.contains "next" || p.deps.contains "vite" ||
     p.devDeps.contains "vite" || p.deps.contains "react-scripts" ||
     p.deps.contains "react")

/-! ## Docker image build (`deploy_tool/core/docker.py`)

`build_docker_image` copies `deploy_tool/dockerfiles/{framework}.Dockerfile`
into the project directory, runs `docker build` there, and in a `finally`
block removes the copied Dockerfile if it exists.  The one piece of local
state it touches is whether `project_path/Dockerfile` exists. -/

/-- Outcomes of the collaborators `build_docker_image` calls. -/
structure DockerEnv where
  /-- Whether the framework-specific Dockerfile template exists under
  the dockerfiles directory of the tool. -/
  sourceExists : Bool
  /-- Whether `shutil.copyfile` succeeds (a failed copy is modelled as
  creating no destination file). -/
  copyOk : Bool
  /-- Whether `docker build` exits 0. -/
  buildOk : Bool

/-- Local filesystem state `build_docker_image` mutates. -/
structure DockerState where
  /-- Whether a Dockerfile exists at the project path. -/
  destPresent : Bool
deriving DecidableEq

/-- How `build_docker_image` terminates. -/
inductive DockerResult where
  | ok
  /-- Raised `FileNotFoundError` at line 21 (template missing). -/
  | raisedFileNotFound
  /-- Raised `typer.Exit(code=1)` from a copy or build failure branch. -/
  | raisedExit
deriving DecidableEq

/-- Model of `build_docker_image` (docker.py, lines 7–60).  The `finally` block
(lines 56–60) removes the copied Dockerfile on both the success and the
failed-build paths; the template-missing and copy-failure branches raise
before a Dockerfile was placed. -/
def build_docker_image (env : DockerEnv) (st : DockerState) :
    DockerResult × DockerState :=
  if !env.sourceExists then (.raisedFileNotFound, st)
  else if !env.copyOk then (.raisedExit, st)
  else
    -- the template is now at project_path/Dockerfile; the try/finally around
    -- `docker build` always ends by deleting it
    if env.buildOk then (.ok, { st with destPresent := false })
    else (.raisedExit, { st with destPresent := false })

/-! ## EC2 monitoring provisioning (`deploy_tool/core/ec2_provision.py`)

`provision_ec2` creates a temporary Terraform working directory
(`tempfile.mkdtemp`, line 21) containing the generated `.pem` key, runs
`terraform init`/`apply`, reads the outputs, then configures the host over a
paramiko SSH session.  Its `finally` block (lines 130–132) only prints the
location of the temporary directory — it never deletes it.  `ssh_client.close()`
is reached only on the fully successful path (line 115). -/

/-- Outcome of one `ssh_client.connect` attempt (lines 85–104). -/
inductive SshOutcome where
  /-- the connection is established. -/
  | connected
  /-- An `AuthenticationException`, re-raised immediately. -/
  | authFailed
  /-- An `SSHException` carrying "not a valid RSA private key file",
  re-raised immediately. -/
  | invalidKey
  /-- any other failure: sleep and retry. -/
  | transientErr

/-- Collaborator outcomes for one `provision_ec2` call. -/
structure Ec2Env where
  /-- Whether `terraform init` exits 0. -/
  tfInitOk : Bool
  /-- Whether `terraform apply` exits 0. -/
  tfApplyOk : Bool
  /-- Whether `json.loads` succeeds on the `terraform output -json` text. -/
  outputParseOk : Bool
  /-- the `ec2_public_ip` output value, when present. -/
  ec2PublicIp : Option String
  /-- the `private_key_path` output value, when present. -/
  privateKeyPath : Option String
  /-- outcome of the i-th SSH connection attempt. -/
  sshAttempts : Nat → SshOutcome
  /-- Whether `_install_and_configure_prometheus_node_exporter` raises no
  error. -/
  prometheusSetupOk : Bool
  /-- Whether `_install_and_configure_grafana` raises no error. -/
  grafanaSetupOk : Bool

/-- Local/remote state `provision_ec2` creates or releases. -/
structure Ec2State where
  /-- the temporary Terraform directory (holding the `.pem` key) exists. -/
  tempDirCreated : Bool
  /-- that directory was removed again before returning. -/
  tempDirRemoved : Bool
  /-- an SSH channel to the host was established. -/
  sessionOpened : Bool
  /-- Whether `ssh_client.close` was called. -/
  sessionClosed : Bool
  /-- retry-delay sleeps performed by the SSH connection loop. -/
  sshSleeps : Nat
deriving DecidableEq

/-- How `provision_ec2` terminates, as seen by its caller in
the step-7 retry loop of `full_deploy.py`. -/
inductive Ec2Result where
  /-- Raised `typer.Exit(code=1)` (Terraform init or apply failed, line 123). -/
  | exitRaised
  /-- returned `None` (missing outputs, SSH failure, or a configuration
  error caught at lines 124–129). -/
  | returnedNone
  /-- returned the public IP of the instance. -/
  | returnedIp (ip : String)
deriving DecidableEq

/-- Result of the bounded SSH connection loop. -/
inductive ConnectResult where
  /-- Left the loop by `break` after a successful connect. -/
  | ok
  /-- an exception left the loop (auth/key re-raise, or the `for`-`else`
  `raise Exception("SSH connection failed.")` after exhaustion). -/
  | raised
deriving DecidableEq

/-- The SSH connection retry loop (ec2_provision.py, lines 85–104):
`attempt` is the absolute attempt index, the last argument the remaining
iterations of `range(max_ssh_retries)`.  Returns the sleeps performed and
whether the loop ended connected or by raising.  A transient failure sleeps
even on the final attempt (the sleep precedes the `for`-`else` raise). -/
def sshConnectLoop (attempts : Nat → SshOutcome) :
    Nat → Nat → Nat × ConnectResult
  | _, 0 => (0, .raised)
  | i, fuel + 1 =>
    match attempts i with
    | .connected => (0, .ok)
    | .authFailed => (0, .raised)
    | .invalidKey => (0, .raised)
    | .transientErr =>
      let r := sshConnectLoop attempts (i + 1) fuel
      (r.1 + 1, r.2)

/-- Model of `provision_ec2` (ec2_provision.py, lines 16–134).  State passing starts
from the freshly created temporary directory; no branch ever removes it and
no branch except the fully successful one closes the SSH session. -/
def provision_ec2 (env : Ec2Env) : Ec2Result × Ec2State :=
  let st0 : Ec2State :=
    { tempDirCreated := true, tempDirRemoved := false,
      sessionOpened := false, sessionClosed := false, sshSleeps := 0 }
  if !env.tfInitOk then (.exitRaised, st0)
  else if !env.tfApplyOk then (.exitRaised, st0)
  else if !env.outputParseOk then (.returnedNone, st0)
  else
    match env.ec2PublicIp, env.privateKeyPath with
    | some ip, some _ =>
      let conn := sshConnectLoop env.sshAttempts 0 10
      let st1 := { st0 with sshSleeps := conn.1 }
      match conn.2 with
      | .raised => (.returnedNone, st1)
      | .ok =>
        let st2 := { st1 with sessionOpened := true }
        if !env.prometheusSetupOk then (.returnedNone, st2)
        else if !env.grafanaSetupOk then (.returnedNone, st2)
        else (.returnedIp ip, { st2 with sessionClosed := true })
    | _, _ => (.returnedNone, st0)

/-! ## Full deployment pipeline (`deploy_tool/commands/full_deploy.py`)

`run_command_logic` executes the stages in order — clone, detect, build
(retry loop), push, write tfvars, ECS Terraform apply (retry loop with a
compensating destroy before each retry), EC2 monitoring provisioning (retry
loop with a compensating destroy before each retry) — and appends a history
record only when a public URL was obtained.  Each Python
`for attempt in range(max_retries)` loop is embedded structurally on the
remaining iteration count, with the absolute attempt index threaded so the
environment can describe the outcome of each attempt. -/

/-- State of one Terraform-managed resource group (`ecs-app.tfstate` or
`ec2-monitor.tfstate`) as the retry loops of the pipeline affect it.
`provisioned` is true when the group holds resources — fully after a
successful apply, or the residue of a failed one. -/
structure InfraGroup where
  provisioned : Bool
  /-- number of compensating `destroy_terraform` calls attempted so far. -/
  destroyAttempts : Nat
deriving DecidableEq

/-- Result of the Docker-build retry loop (full_deploy.py, lines 83–99). -/
structure BuildLoopResult where
  /-- the loop ended with `break` or fell through, rather than raising
  `typer.Exit` after the final failure. -/
  ok : Bool
  /-- build attempts actually made. -/
  attempts : Nat
  /-- retry-delay sleeps performed. -/
  sleeps : Nat
deriving DecidableEq

/-- The Docker-build retry loop: `attempt` is the absolute attempt index
(`range` position), `sleeps` the sleeps so far, the last argument the
remaining iterations.  On failure with iterations remaining it sleeps and
retries this same step; on failure at the final iteration it raises
(`ok := false`).  With zero total iterations (`--retries 0`) the `for` body
never runs and control falls through to the next step. -/
def dockerBuildLoop (results : Nat → Bool) :
    Nat → Nat → Nat → BuildLoopResult
  | attempt, sleeps, 0 => ⟨true, attempt, sleeps⟩
  | attempt, sleeps, fuel + 1 =>
    if results attempt then ⟨true, attempt + 1, sleeps⟩
    else if 0 < fuel then dockerBuildLoop results (attempt + 1) (sleeps + 1) fuel
    else ⟨false, attempt + 1, sleeps⟩

/-- Result of the ECS Terraform retry loop (full_deploy.py, lines 129–153). -/
structure EcsLoopResult where
  ok : Bool
  /-- an apply succeeded (so `public_url` was assigned); false on the
  zero-iteration fall-through. -/
  applied : Bool
  attempts : Nat
  sleeps : Nat
  group : InfraGroup
deriving DecidableEq

/-- The ECS Terraform retry loop.  `applyOk i` says whether the
`apply_terraform` call of attempt `i` succeeds; a failed attempt leaves residual resources when
`residue i`; before each retry a compensating `destroy_terraform` is
attempted (a destroy failure is only warned about, line 147–148), then the
loop sleeps and retries.  After the final failed attempt it raises without
any destroy (lines 151–153). -/
def ecsLoop (applyOk residue destroyOk : Nat → Bool) :
    Nat → Nat → Nat → InfraGroup → EcsLoopResult
  | attempt, sleeps, 0, g => ⟨true, false, attempt, sleeps, g⟩
  | attempt, sleeps, fuel + 1, g =>
    if applyOk attempt then
      ⟨true, true, attempt + 1, sleeps, { g with provisioned := true }⟩
    else
      let g1 : InfraGroup := { g with provisioned := g.provisioned || residue attempt }
      if 0 < fuel then
        ecsLoop applyOk residue destroyOk (attempt + 1) (sleeps + 1) fuel
          (if destroyOk attempt then ⟨false, g1.destroyAttempts + 1⟩
           else ⟨g1.provisioned, g1.destroyAttempts + 1⟩)
      else ⟨false, false, attempt + 1, sleeps, g1⟩

/-- Result of the EC2 provisioning retry loop (full_deploy.py, lines 159–197). -/
structure Ec2LoopResult where
  ok : Bool
  /-- the `ec2_ip` value at `break` (None stays `none`). -/
  ip : Option String
  attempts : Nat
  sleeps : Nat
  group : InfraGroup
deriving DecidableEq

/-- The EC2 provisioning retry loop.  An attempt that raises
(`Ec2Result.exitRaised`, from a Terraform failure inside `provision_ec2`) is
caught and triggers the compensate-sleep-retry path; an attempt that merely
returns `None` (SSH or configuration failure swallowed inside
`provision_ec2`) hits `break` and the step is treated as done.  Both
non-raising outcomes leave the monitoring group provisioned, since
`provision_ec2` only returns normally after its `terraform apply`
succeeded. -/
def ec2Loop (results : Nat → Ec2Result) (residue destroyOk : Nat → Bool) :
    Nat → Nat → Nat → InfraGroup → Ec2LoopResult
  | attempt, sleeps, 0, g => ⟨true, none, attempt, sleeps, g⟩
  | attempt, sleeps, fuel + 1, g =>
    match results attempt with
    | .returnedIp ip =>
      ⟨true, some ip, attempt + 1, sleeps, { g with provisioned := true }⟩
    | .returnedNone =>
      ⟨true, none, attempt + 1, sleeps, { g with provisioned := true }⟩
    | .exitRaised =>
      let g1 : InfraGroup := { g with provisioned := g.provisioned || residue attempt }
      if 0 < fuel then
        ec2Loop results residue destroyOk (attempt + 1) (sleeps + 1) fuel
          (if destroyOk attempt then ⟨false, g1.destroyAttempts + 1⟩
           else ⟨g1.provisioned, g1.destroyAttempts + 1⟩)
      else ⟨false, none, attempt + 1, sleeps, g1⟩

/-- Collaborator outcomes for one `run_command_logic` invocation. -/
structure DeployEnv where
  /-- step 1 ends with a usable working tree (clone or pull, including the
  pull-failure → re-clone fallback) rather than `typer.Exit`. -/
  cloneOk : Bool
  /-- Whether `detect_framework` returns without raising. -/
  detectOk : Bool
  /-- the project name `detect_framework` returned. -/
  projectName : String
  repoUrl : String
  /-- the `datetime.now().strftime(...)` timestamp used in the image tag. -/
  timestamp : String
  region : String
  awsProfile : String
  /-- Whether `build_docker_image` succeeds on attempt `i`. -/
  buildResults : Nat → Bool
  /-- Whether `push_to_ecr` succeeds. -/
  pushOk : Bool
  /-- the image URI `push_to_ecr` returned. -/
  imageUri : String
  /-- Whether `write_tfvars` succeeds. -/
  tfvarsOk : Bool
  /-- Whether `apply_terraform` succeeds on ECS attempt `i`. -/
  ecsApplyOk : Nat → Bool
  /-- a failed ECS apply attempt `i` left residual resources behind. -/
  ecsResidue : Nat → Bool
  /-- the compensating `destroy_terraform` before ECS retry `i+1` succeeds. -/
  ecsDestroyOk : Nat → Bool
  /-- The `get_terraform_output` result (empty string when the output is
  missing — the function returns `""` instead of raising). -/
  publicUrl : String
  /-- outcome of `provision_ec2` on attempt `i`. -/
  ec2Results : Nat → Ec2Result
  /-- a raising EC2 attempt `i` left residual resources behind. -/
  ec2Residue : Nat → Bool
  /-- the compensating `destroy_terraform` before EC2 retry `i+1` succeeds. -/
  ec2DestroyOk : Nat → Bool

/-- Mutable state of one pipeline run. -/
structure RunState where
  /-- the `ecs-app.tfstate` resource group. -/
  appGroup : InfraGroup
  /-- the `ec2-monitor.tfstate` resource group. -/
  monitorGroup : InfraGroup
  /-- the deployment-history storage. -/
  ledger : LedgerStore
  /-- The value `attempt + 1` reached by the Docker build loop. -/
  buildAttempts : Nat
  /-- total retry-delay sleeps performed. -/
  sleeps : Nat

/-- How `run_command_logic` terminates. -/
inductive RunOutcome where
  /-- reached the final success block and appended this history record. -/
  | success (record : Record)
  /-- Terminated by `raise typer.Exit(code=1)` (non-zero process exit). -/
  | exitFailure
deriving DecidableEq

/-- Model of the line `safe_name = project_name.lower().replace("_", "-")`
(full_deploy.py, line 79), for ASCII project names. -/
def safeName (projectName : String) : String :=
  String.mk (projectName.toList.map fun c => if c = '_' then '-' else c.toLower)

/-- Python truthiness of the `public_url` variable at line 200
(`None` and `""` are falsy). -/
def isTruthy : Option String → Bool
  | none => false
  | some s => s ≠ ""

/-- The history record built at lines 212–222 on the success path.  It
carries deployment metadata only — there is no `status` field. -/
def mkDeploymentRecord (env : DeployEnv) (imageTag publicUrl : String)
    (ec2Ip : Option String) : Record :=
  [("timestamp", env.timestamp),
   ("project_name", safeName env.projectName),
   ("repo_url", env.repoUrl),
   ("image_tag", imageTag),
   ("image_uri", env.imageUri),
   ("public_app_url", publicUrl),
   ("monitor_ec2_ip", ec2Ip.getD "N/A"),
   ("region", env.region),
   ("aws_profile", env.awsProfile)]

/-- Model of `run_command_logic` (full_deploy.py, lines 25–228): the staged pipeline
with per-stage retry loops.  `maxRetries` is the `--retries` option; the
result pairs the terminal outcome with the final run state. -/
def run_command_logic (env : DeployEnv) (maxRetries : Nat) (st : RunState) :
    RunOutcome × RunState :=
  if !env.cloneOk then (.exitFailure, st)
  else if !env.detectOk then (.exitFailure, st)
  else
    let name := safeName env.projectName
    let imageTag := name ++ ":" ++ env.timestamp
    let b := dockerBuildLoop env.buildResults 0 0 maxRetries
    let st1 := { st with buildAttempts := b.attempts, sleeps := st.sleeps + b.sleeps }
    if !b.ok then (.exitFailure, st1)
    else if !env.pushOk then (.exitFailure, st1)
    else if !env.tfvarsOk then (.exitFailure, st1)
    else
      let e := ecsLoop env.ecsApplyOk env.ecsResidue env.ecsDestroyOk
        0 0 maxRetries st1.appGroup
      let st2 := { st1 with appGroup := e.group, sleeps := st1.sleeps + e.sleeps }
      if !e.ok then (.exitFailure, st2)
      else
        -- public_url stays None unless an ECS apply actually succeeded
        let publicUrl : Option String :=
          if e.applied then some env.publicUrl else none
        let m := ec2Loop env.ec2Results env.ec2Residue env.ec2DestroyOk
          0 0 maxRetries st2.monitorGroup
        let st3 := { st2 with monitorGroup := m.group, sleeps := st2.sleeps + m.sleeps }
        if !m.ok then (.exitFailure, st3)
        else if isTruthy publicUrl then
          let record := mkDeploymentRecord env imageTag (publicUrl.getD "") m.ip
          (.success record,
           { st3 with ledger := add_deployment_record st3.ledger name record })
        else (.exitFailure, st3)

/-- A fresh run state over an empty ledger. -/
def initialRunState : RunState :=
  { appGroup := ⟨false, 0⟩, monitorGroup := ⟨false, 0⟩,
    ledger := emptyStore, buildAttempts := 0, sleeps := 0 }

/-! ## Concrete instances used by the theorems below -/

/-- A ledger storage in which every history file exists but is corrupt. -/
def corruptStore : LedgerStore := fun _ => .corrupt "not json"

/-- A rollback environment in which every AWS call succeeds. -/
def rbHappy : RollbackEnv := ⟨true, true, true, true⟩

/-- A `package.json` that fails to parse. -/
def badPkg : PkgJson := ⟨false, ["next"], [], "workspace/app", "app"⟩

/-- A parsed `package.json` matching no known framework dependency. -/
def plainPkg : PkgJson := ⟨true, ["left-pad"], [], "workspace/lib", "lib"⟩

/-- A parsed `package.json` with a `next` dependency. -/
def nextPkg : PkgJson := ⟨true, ["next"], [], "workspace/site", "site"⟩

/-- An EC2 provisioning environment in which every collaborator succeeds. -/
def ec2Happy : Ec2Env :=
  { tfInitOk := true, tfApplyOk := true, outputParseOk := true,
    ec2PublicIp := some "9.9.9.9", privateKeyPath := some "k.pem",
    sshAttempts := fun _ => .connected, prometheusSetupOk := true,
    grafanaSetupOk := true }

/-- Like `ec2Happy`, but the Prometheus configuration step fails after the
SSH session was established. -/
def ec2PromFail : Ec2Env := { ec2Happy with prometheusSetupOk := false }

/-- A pipeline environment in which every collaborator succeeds on every
attempt. -/
def envAllOk : DeployEnv :=
  { cloneOk := true, detectOk := true, projectName := "mayur-app",
    repoUrl := "u", timestamp := "t", region := "r", awsProfile := "a",
    buildResults := fun _ => true, pushOk := true, imageUri := "i",
    tfvarsOk := true, ecsApplyOk := fun _ => true,
    ecsResidue := fun _ => true, ecsDestroyOk := fun _ => true,
    publicUrl := "http://x", ec2Results := fun _ => .returnedIp "9.9.9.9",
    ec2Residue := fun _ => true, ec2DestroyOk := fun _ => true }

/-- Like `envAllOk`, but every ECS Terraform apply attempt fails (and each
failed attempt leaves residual resources). -/
def envC1 : DeployEnv := { envAllOk with ecsApplyOk := fun _ => false }

/-- Like `envAllOk`, but every Docker build attempt fails. -/
def envC3 : DeployEnv := { envAllOk with buildResults := fun _ => false }

/-- Like `envAllOk`, but the Docker build fails on attempts 0 and 1 and
succeeds from attempt 2 on, and EC2 provisioning returns `None`. -/
def envFlaky : DeployEnv :=
  { envAllOk with buildResults := fun i => 2 ≤ i,
                  ec2Results := fun _ => .returnedNone }

/-! ## Shared loop lemmas -/

/-- Closed form of the ECS Terraform retry loop when every apply attempt
fails and every compensating destroy succeeds: all `k + 1` attempts run,
`k` destroys and `k` sleeps happen (one of each before every retry, none
after the final failure), and the group ends holding the residue of the
final failed attempt. -/
theorem ecsLoop_all_fail (applyOk rs dok : Nat → Bool)
    (happly : ∀ i, applyOk i = false) (hdok : ∀ i, dok i = true) :
    ∀ (k a s : Nat) (g : InfraGroup), g.provisioned = false →
      ecsLoop applyOk rs dok a s (k + 1) g =
        ⟨false, false, a + k + 1, s + k, ⟨rs (a + k), g.destroyAttempts + k⟩⟩ := by
  intro k
  induction k with
  | zero =>
    intro a s g hg
    simp [ecsLoop, happly a, hg]
  | succ k ih =>
    intro a s g hg
    have step := ih (a + 1) (s + 1) ⟨false, g.destroyAttempts + 1⟩ rfl
    have e1 : a + 1 + k = a + k + 1 := by omega
    have e2 : s + 1 + k = s + k + 1 := by omega
    have e3 : g.destroyAttempts + 1 + k = g.destroyAttempts + k + 1 := by omega
    rw [e1, e2, e3] at step
    rw [ecsLoop, happly a]
    simp [hdok a, step]
    simp [← Nat.add_assoc]

/-- Closed form of the EC2 provisioning retry loop when every attempt raises
and every compensating destroy succeeds; exactly like `ecsLoop_all_fail`. -/
theorem ec2Loop_all_fail (results : Nat → Ec2Result) (rs dok : Nat → Bool)
    (hres : ∀ i, results i = .exitRaised) (hdok : ∀ i, dok i = true) :
    ∀ (k a s : Nat) (g : InfraGroup), g.provisioned = false →
      ec2Loop results rs dok a s (k + 1) g =
        ⟨false, none, a + k + 1, s + k, ⟨rs (a + k), g.destroyAttempts + k⟩⟩ := by
  intro k
  induction k with
  | zero =>
    intro a s g hg
    simp [ec2Loop, hres a, hg]
  | succ k ih =>
    intro a s g hg
    have step := ih (a + 1) (s + 1) ⟨false, g.destroyAttempts + 1⟩ rfl
    have e1 : a + 1 + k = a + k + 1 := by omega
    have e2 : s + 1 + k = s + k + 1 := by omega
    have e3 : g.destroyAttempts + 1 + k = g.destroyAttempts + k + 1 := by omega
    rw [e1, e2, e3] at step
    rw [ec2Loop, hres a]
    simp [hdok a, step]
    simp [← Nat.add_assoc]

/-- Closed form of the Docker build retry loop when the first `k` attempts
fail and attempt `k` succeeds within the budget: the loop ends successfully
after `k + 1` attempts and `k` sleeps. -/
theorem dockerBuildLoop_fail_then_succeed (results : Nat → Bool) :
    ∀ (k a s fuel : Nat), k < fuel →
      (∀ i, i < k → results (a + i) = false) → results (a + k) = true →
      dockerBuildLoop results a s fuel = ⟨true, a + k + 1, s + k⟩ := by
  intro k
  induction k with
  | zero =>
    intro a s fuel hfuel _ hk
    match fuel, hfuel with
    | f + 1, _ =>
      have hk2 : results a = true := by simpa using hk
      simp [dockerBuildLoop, hk2]
  | succ k ih =>
    intro a s fuel hfuel hfail hk
    match fuel, hfuel with
    | f + 1, hfuel =>
      have h0 : results a = false := by simpa using hfail 0 (Nat.succ_pos k)
      have hf : 0 < f := by omega
      have hfail2 : ∀ i, i < k → results (a + 1 + i) = false := by
        intro i hi
        have := hfail (i + 1) (by omega)
        simpa [Nat.add_assoc, Nat.add_comm 1 i] using this
      have hk2 : results (a + 1 + k) = true := by
        have := hk
        simpa [Nat.add_assoc, Nat.add_comm 1 k] using this
      have := ih (a + 1) (s + 1) f (by omega) hfail2 hk2
      simp [dockerBuildLoop, h0, hf, this]
      constructor <;> omega

/-! ## Claim theorems -/

/-- Claim C1, counterexample.  With every stage before the ECS apply
succeeding, two attempts allowed, both ECS applies failing with residual
resources, and every compensating destroy succeeding, the run ends in
`typer.Exit` by retry exhaustion on the ECS stage — yet the app resource
group is still provisioned: only one destroy ran (before the single retry),
and none ran as part of aborting.  This refutes the claim that a
compensating destroy is performed as part of aborting so that
`provisioned == false` when the run ends. -/
theorem run_exhaustion_leaves_app_group_provisioned :
    (run_command_logic envC1 2 initialRunState).1 = .exitFailure ∧
    (run_command_logic envC1 2 initialRunState).2.appGroup.provisioned = true ∧
    (run_command_logic envC1 2 initialRunState).2.appGroup.destroyAttempts = 1 := by
  decide

/-- Claim C1, amended.  For a run that reaches `failed` by retry exhaustion
on an infrastructure stage, the compensating destroy of the resource group
of that stage happens only before each retry, never as part of aborting:
with `m + 1` attempts all failing and destroys succeeding, exactly `m`
destroys are attempted and the group is left holding whatever residue the
final failed attempt created (so it may well remain provisioned).  The
second conjunct states the same for the EC2 monitoring loop. -/
theorem run_exhaustion_compensates_only_before_retries
    (env : DeployEnv) (m : Nat) (st : RunState)
    (hclone : env.cloneOk = true) (hdetect : env.detectOk = true)
    (hbuild : env.buildResults 0 = true) (hpush : env.pushOk = true)
    (htfvars : env.tfvarsOk = true)
    (happly : ∀ i, env.ecsApplyOk i = false)
    (hdok : ∀ i, env.ecsDestroyOk i = true)
    (hg : st.appGroup.provisioned = false) :
    ((run_command_logic env (m + 1) st).1 = .exitFailure ∧
     (run_command_logic env (m + 1) st).2.appGroup.provisioned = env.ecsResidue m ∧
     (run_command_logic env (m + 1) st).2.appGroup.destroyAttempts
       = st.appGroup.destroyAttempts + m) ∧
    (∀ (results : Nat → Ec2Result) (rs dok : Nat → Bool) (k a s : Nat) (g : InfraGroup),
      (∀ i, results i = .exitRaised) → (∀ i, dok i = true) → g.provisioned = false →
      ec2Loop results rs dok a s (k + 1) g =
        ⟨false, none, a + k + 1, s + k, ⟨rs (a + k), g.destroyAttempts + k⟩⟩) := by
  constructor
  · have hb : dockerBuildLoop env.buildResults 0 0 (m + 1) = ⟨true, 1, 0⟩ := by
      simp [dockerBuildLoop, hbuild]
    have he := ecsLoop_all_fail env.ecsApplyOk env.ecsResidue env.ecsDestroyOk
      happly hdok m 0 0 st.appGroup hg
    simp [run_command_logic, hclone, hdetect, hpush, htfvars, hb, he]
  · intro results rs dok k a s g h1 h2 h3
    exact ec2Loop_all_fail results rs dok h1 h2 k a s g h3

/-- Witness for the amended claim C1: two attempts, both ECS applies fail,
run aborts with the group holding the residue of attempt 1 and exactly one
destroy attempted. -/
theorem run_exhaustion_compensates_only_before_retries_witness :
    (run_command_logic envC1 (1 + 1) initialRunState).1 = .exitFailure ∧
    (run_command_logic envC1 (1 + 1) initialRunState).2.appGroup.provisioned
      = envC1.ecsResidue 1 ∧
    (run_command_logic envC1 (1 + 1) initialRunState).2.appGroup.destroyAttempts
      = initialRunState.appGroup.destroyAttempts + 1 :=
  (run_exhaustion_compensates_only_before_retries envC1 1 initialRunState
    rfl rfl rfl rfl rfl (fun _ => rfl) (fun _ => rfl) rfl).1

/-- Claim C2: with the AWS calls succeeding, `rollback_ecs_service` on a
descending revision list of length at least two whose index 0 equals the
active revision returns the pair `(current, previous)` and switches the
active revision to the entry at index 1; on a list with fewer than two
entries it fails with the no-previous-revision error and leaves the active
revision unchanged. -/
theorem rollback_switches_to_previous_revision (env : RollbackEnv) (st : ECSState)
    (hs : env.sessionOk = true) (hd : env.describeOk = true) (hu : env.updateOk = true) :
    (2 ≤ st.revisionList.length → st.revisionList.getD 0 "" = st.activeRevision →
      rollback_ecs_service env st =
        (.ok (st.activeRevision, st.revisionList.getD 1 ""),
         { st with activeRevision := st.revisionList.getD 1 "" })) ∧
    (st.revisionList.length < 2 →
      rollback_ecs_service env st =
        (.error "No previous revision available for rollback.", st)) := by
  constructor
  · intro hlen _hhead
    simp [rollback_ecs_service, hs, hd, hu, Nat.not_lt.mpr hlen]
  · intro hlen
    simp [rollback_ecs_service, hs, hd, hlen]

/-- Witness for claim C2 at the two scenarios of the spec: history
`[v3, v2, v1]` with `v3` active rolls back to `v2`; history `[v1]` fails
and leaves `v1` active. -/
theorem rollback_switches_to_previous_revision_witness :
    rollback_ecs_service rbHappy ⟨"v3", ["v3", "v2", "v1"]⟩ =
      (.ok ("v3", "v2"), ⟨"v2", ["v3", "v2", "v1"]⟩) ∧
    rollback_ecs_service rbHappy ⟨"v1", ["v1"]⟩ =
      (.error "No previous revision available for rollback.", ⟨"v1", ["v1"]⟩) :=
  ⟨(rollback_switches_to_previous_revision rbHappy ⟨"v3", ["v3", "v2", "v1"]⟩
      rfl rfl rfl).1 (by decide) rfl,
   (rollback_switches_to_previous_revision rbHappy ⟨"v1", ["v1"]⟩
      rfl rfl rfl).2 (by decide)⟩

/-- Claim C3, counterexample.  A run that fails by retry exhaustion (here:
every Docker build attempt fails with one attempt allowed) raises
`typer.Exit` and appends nothing to the ledger: afterwards the per-project
history is still empty, so no record with a failure status exists.  This
refutes the claim that every terminal outcome — in particular a failed
run — produces a ledger record with `status=failure`. -/
theorem failed_run_appends_no_ledger_record :
    (run_command_logic envC3 1 initialRunState).1 = .exitFailure ∧
    load_history (run_command_logic envC3 1 initialRunState).2.ledger
      (safeName envC3.projectName) = [] := by
  decide

/-- Claim C3, amended.  Only a successful run appends a ledger record: a run
that ends in `typer.Exit` leaves the ledger exactly as it was, and the
record appended by a successful run carries deployment metadata only — it
has no `status` field at all. -/
theorem ledger_record_only_on_success (env : DeployEnv) (n : Nat) (st : RunState) :
    ((run_command_logic env n st).1 = .exitFailure →
      (run_command_logic env n st).2.ledger = st.ledger) ∧
    (∀ r, (run_command_logic env n st).1 = .success r →
      (run_command_logic env n st).2.ledger
        = add_deployment_record st.ledger (safeName env.projectName) r ∧
      List.lookup "status" r = none) := by
  by_cases h1 : env.cloneOk = true
  case neg => simp [run_command_logic, h1]
  by_cases h2 : env.detectOk = true
  case neg => simp [run_command_logic, h1, h2]
  by_cases h3 : (dockerBuildLoop env.buildResults 0 0 n).ok = true
  case neg => simp [run_command_logic, h1, h2, h3]
  by_cases h4 : env.pushOk = true
  case neg => simp [run_command_logic, h1, h2, h3, h4]
  by_cases h5 : env.tfvarsOk = true
  case neg => simp [run_command_logic, h1, h2, h3, h4, h5]
  by_cases h6 : (ecsLoop env.ecsApplyOk env.ecsResidue env.ecsDestroyOk
      0 0 n st.appGroup).ok = true
  case neg => simp [run_command_logic, h1, h2, h3, h4, h5, h6]
  by_cases h7 : (ec2Loop env.ec2Results env.ec2Residue env.ec2DestroyOk
      0 0 n st.monitorGroup).ok = true
  case neg => simp [run_command_logic, h1, h2, h3, h4, h5, h6, h7]
  by_cases h8 : isTruthy (if (ecsLoop env.ecsApplyOk env.ecsResidue env.ecsDestroyOk
      0 0 n st.appGroup).applied = true then some env.publicUrl else none) = true
  case neg => simp [run_command_logic, h1, h2, h3, h4, h5, h6, h7, h8]
  refine ⟨fun h => ?_, fun r hr => ?_⟩
  · simp [run_command_logic, h1, h2, h3, h4, h5, h6, h7, h8] at h
  · simp only [run_command_logic, h1, h2, h3, h4, h5, h6, h7, h8] at hr ⊢
    simp at hr
    simp [run_command_logic, h1, h2, h3, h4, h5, h6, h7, h8, ← hr,
      mkDeploymentRecord, List.lookup]

/-- Witness for the amended claim C3: a failing run leaves the ledger
untouched; an all-success run appends exactly its metadata record, which
has no `status` field. -/
theorem ledger_record_only_on_success_witness :
    (run_command_logic envC3 1 initialRunState).2.ledger = initialRunState.ledger ∧
    ((run_command_logic envAllOk 3 initialRunState).2.ledger
        = add_deployment_record initialRunState.ledger (safeName envAllOk.projectName)
            (mkDeploymentRecord envAllOk "mayur-app:t" "http://x" (some "9.9.9.9")) ∧
      List.lookup "status"
        (mkDeploymentRecord envAllOk "mayur-app:t" "http://x" (some "9.9.9.9")) = none) :=
  ⟨(ledger_record_only_on_success envC3 1 initialRunState).1 rfl,
   (ledger_record_only_on_success envAllOk 3 initialRunState).2
     (mkDeploymentRecord envAllOk "mayur-app:t" "http://x" (some "9.9.9.9")) rfl⟩

/-- Claim C4: a failed attempt with iterations remaining sleeps the
configured delay and re-runs only the same stage (first conjunct: the build
loop re-enters itself at the next attempt index with one more sleep; the
stage sequencing of `run_command_logic` runs each earlier stage exactly
once, so no prior stage is re-run); for the two infrastructure stages the
compensating destroy is attempted before the sleep and retry (second and
third conjuncts: the group passed to the next iteration has
`destroyAttempts` incremented, cleared when the destroy succeeded); and a
build that fails fewer than the allowed attempts still lets the run end in
success, with the attempt count equal to the number of attempts made
(fourth conjunct). -/
theorem stage_retry_and_compensation_policy (env : DeployEnv) (n k : Nat) (st : RunState) :
    (∀ (results : Nat → Bool) (a s fuel : Nat), results a = false → 0 < fuel →
      dockerBuildLoop results a s (fuel + 1) = dockerBuildLoop results (a + 1) (s + 1) fuel) ∧
    (∀ (applyOk rs dok : Nat → Bool) (a s fuel : Nat) (g : InfraGroup),
      applyOk a = false → 0 < fuel →
      ecsLoop applyOk rs dok a s (fuel + 1) g =
        ecsLoop applyOk rs dok (a + 1) (s + 1) fuel
          (if dok a then ⟨false, g.destroyAttempts + 1⟩
           else ⟨g.provisioned || rs a, g.destroyAttempts + 1⟩)) ∧
    (∀ (results : Nat → Ec2Result) (rs dok : Nat → Bool) (a s fuel : Nat) (g : InfraGroup),
      results a = .exitRaised → 0 < fuel →
      ec2Loop results rs dok a s (fuel + 1) g =
        ec2Loop results rs dok (a + 1) (s + 1) fuel
          (if dok a then ⟨false, g.destroyAttempts + 1⟩
           else ⟨g.provisioned || rs a, g.destroyAttempts + 1⟩)) ∧
    (k < n → (∀ i, i < k → env.buildResults i = false) → env.buildResults k = true →
      env.cloneOk = true → env.detectOk = true → env.pushOk = true → env.tfvarsOk = true →
      env.ecsApplyOk 0 = true → env.ec2Results 0 = .returnedNone → env.publicUrl ≠ "" →
      (∃ rec, (run_command_logic env n st).1 = .success rec) ∧
        (run_command_logic env n st).2.buildAttempts = k + 1) := by
  refine ⟨?_, ?_, ?_, ?_⟩
  · intro results a s fuel hf hfuel
    simp [dockerBuildLoop, hf, hfuel]
  · intro applyOk rs dok a s fuel g hf hfuel
    rw [ecsLoop, hf]
    simp [hfuel]
  · intro results rs dok a s fuel g hf hfuel
    rw [ec2Loop, hf]
    simp [hfuel]
  · intro hk hfail hsucc hclone hdetect hpush htfvars hecs hec2 hpub
    obtain ⟨m, rfl⟩ : ∃ m, n = m + 1 := ⟨n - 1, by omega⟩
    have hb := dockerBuildLoop_fail_then_succeed env.buildResults k 0 0 (m + 1) hk
      (fun i hi => by simpa using hfail i hi) (by simpa using hsucc)
    have he : ∀ g : InfraGroup,
        ecsLoop env.ecsApplyOk env.ecsResidue env.ecsDestroyOk 0 0 (m + 1) g =
          ⟨true, true, 1, 0, { g with provisioned := true }⟩ := by
      intro g; rw [ecsLoop, hecs]; simp
    have hm : ∀ g : InfraGroup,
        ec2Loop env.ec2Results env.ec2Residue env.ec2DestroyOk 0 0 (m + 1) g =
          ⟨true, none, 1, 0, { g with provisioned := true }⟩ := by
      intro g; rw [ec2Loop, hec2]
    simp [run_command_logic, hclone, hdetect, hpush, htfvars, hb, he, hm, isTruthy, hpub]

/-- Witness for claim C4, at the spec scenario: with three attempts allowed
and the Docker build failing twice then succeeding, the run ends in success
with attempt count 3; the first three conjuncts instantiate the
retry-step equations at attempt 0 with one iteration remaining. -/
theorem stage_retry_and_compensation_policy_witness :
    (dockerBuildLoop (fun _ => false) 0 0 (1 + 1)
       = dockerBuildLoop (fun _ => false) 1 1 1) ∧
    (ecsLoop (fun _ => false) (fun _ => true) (fun _ => true) 0 0 (1 + 1) ⟨false, 0⟩
       = ecsLoop (fun _ => false) (fun _ => true) (fun _ => true) 1 1 1 ⟨false, 1⟩) ∧
    (ec2Loop (fun _ => .exitRaised) (fun _ => true) (fun _ => true) 0 0 (1 + 1) ⟨false, 0⟩
       = ec2Loop (fun _ => .exitRaised) (fun _ => true) (fun _ => true) 1 1 1 ⟨false, 1⟩) ∧
    ((∃ rec, (run_command_logic envFlaky 3 initialRunState).1 = .success rec) ∧
      (run_command_logic envFlaky 3 initialRunState).2.buildAttempts = 2 + 1) :=
  ⟨(stage_retry_and_compensation_policy envFlaky 3 2 initialRunState).1
     (fun _ => false) 0 0 1 rfl (by decide),
   (stage_retry_and_compensation_policy envFlaky 3 2 initialRunState).2.1
     (fun _ => false) (fun _ => true) (fun _ => true) 0 0 1 ⟨false, 0⟩ rfl (by decide),
   (stage_retry_and_compensation_policy envFlaky 3 2 initialRunState).2.2.1
     (fun _ => .exitRaised) (fun _ => true) (fun _ => true) 0 0 1 ⟨false, 0⟩ rfl (by decide),
   (stage_retry_and_compensation_policy envFlaky 3 2 initialRunState).2.2.2
     (by decide) (fun i hi => decide_eq_false (by omega)) (by decide)
     rfl rfl rfl rfl rfl rfl (by decide)⟩

/-- Claim C5: appending a record and then loading yields the previous
sequence with the record as new last element — stated as the append
equation plus the last-element and unchanged-prefix consequences the spec
names. -/
theorem ledger_append_load_roundtrip (store : LedgerStore) (p : String) (r : Record) :
    load_history (add_deployment_record store p r) p = load_history store p ++ [r] ∧
    (load_history (add_deployment_record store p r) p).getLast? = some r ∧
    (load_history (add_deployment_record store p r) p).dropLast = load_history store p := by
  have h : load_history (add_deployment_record store p r) p
      = load_history store p ++ [r] := by
    simp [add_deployment_record, save_history, load_history]
  refine ⟨h, ?_, ?_⟩ <;> simp [h]

/-- Claim C6: loading the history of a project whose file is missing, or
whose content is not valid JSON, yields the empty sequence; by
construction `load_history` is total, so neither case raises to the
caller. -/
theorem load_history_missing_or_corrupt_empty (store : LedgerStore) (p : String) :
    (store p = .missing → load_history store p = []) ∧
    (∀ s, store p = .corrupt s → load_history store p = []) := by
  refine ⟨fun h => ?_, fun s h => ?_⟩ <;> simp [load_history, h]

/-- Witness for claim C6 on a missing file and on a corrupt file. -/
theorem load_history_missing_or_corrupt_empty_witness :
    load_history emptyStore "proj" = [] ∧ load_history corruptStore "proj" = [] :=
  ⟨(load_history_missing_or_corrupt_empty emptyStore "proj").1 rfl,
   (load_history_missing_or_corrupt_empty corruptStore "proj").2 "not json" rfl⟩

/-- Claim C7, counterexample.  When the SSH connection succeeds but the
Prometheus configuration step then fails, `provision_ec2` catches the
exception and returns `None` with the SSH session still open:
`ssh_client.close()` is on the success path only, so this execution leaks
the channel.  This refutes the claim that the session is closed on every
failure path. -/
theorem ssh_session_leaked_on_config_failure :
    (provision_ec2 ec2PromFail).1 = .returnedNone ∧
    (provision_ec2 ec2PromFail).2.sessionOpened = true ∧
    (provision_ec2 ec2PromFail).2.sessionClosed = false := by
  decide

/-- Claim C7, amended.  The SSH session is closed only on the fully
successful path: whenever `provision_ec2` returns an IP the session was
closed, and whenever a session was opened but the call returned `None`
(a configuration step failed after connecting) the session was left
open. -/
theorem ssh_session_closed_only_on_success (env : Ec2Env) :
    (∀ ip, (provision_ec2 env).1 = .returnedIp ip →
      (provision_ec2 env).2.sessionClosed = true) ∧
    ((provision_ec2 env).2.sessionOpened = true →
      (provision_ec2 env).1 = .returnedNone →
      (provision_ec2 env).2.sessionClosed = false) := by
  unfold provision_ec2
  constructor
  · intro ip
    repeat' split
    all_goals try cases hconn : (sshConnectLoop env.sshAttempts 0 10).2
    all_goals simp_all
  · repeat' split
    all_goals try cases hconn : (sshConnectLoop env.sshAttempts 0 10).2
    all_goals simp_all

/-- Witness for the amended claim C7: closed on the all-success run, left
open when the Prometheus step fails after connecting. -/
theorem ssh_session_closed_only_on_success_witness :
    (provision_ec2 ec2Happy).2.sessionClosed = true ∧
    (provision_ec2 ec2PromFail).2.sessionClosed = false :=
  ⟨(ssh_session_closed_only_on_success ec2Happy).1 "9.9.9.9" rfl,
   (ssh_session_closed_only_on_success ec2PromFail).2 rfl rfl⟩

/-- Claim C8, counterexample.  Even on a fully successful run the temporary
Terraform directory (which holds the generated private key) still exists
when `provision_ec2` returns: the `finally` block only prints its location
and deliberately does not delete it.  This refutes the claim that every
temporary working directory is removed before the run ends. -/
theorem temp_dir_kept_on_success :
    (provision_ec2 ec2Happy).1 = .returnedIp "9.9.9.9" ∧
    (provision_ec2 ec2Happy).2.tempDirCreated = true ∧
    (provision_ec2 ec2Happy).2.tempDirRemoved = false := by
  decide

/-- Claim C8, amended.  The temporary Terraform directory created by
`provision_ec2` is removed on no exit path at all — success or failure —
and the directory lives under the system temp root, outside the
`workspace/` tree that `cleanup-local` deletes. -/
theorem temp_dir_never_removed (env : Ec2Env) :
    (provision_ec2 env).2.tempDirCreated = true ∧
    (provision_ec2 env).2.tempDirRemoved = false := by
  unfold provision_ec2
  repeat' split
  all_goals try cases hconn : (sshConnectLoop env.sshAttempts 0 10).2
  all_goals simp_all

/-- Claim C9: the Dockerfile copied from the framework template into the
project directory is deleted again before `build_docker_image` returns or
propagates, on the success path and on every failure path: whenever the
copy step ran, the final state has no Dockerfile at the project path
(first conjunct), and a tree that started without one never gains one
(second conjunct, covering the branches that raise before copying). -/
theorem dockerfile_cleanup_on_all_paths (env : DockerEnv) (st : DockerState) :
    (env.sourceExists = true → env.copyOk = true →
      ((build_docker_image env st).2).destPresent = false) ∧
    (st.destPresent = false → ((build_docker_image env st).2).destPresent = false) := by
  constructor
  · intro hs hc
    cases hb : env.buildOk <;> simp [build_docker_image, hs, hc, hb]
  · intro h
    cases hs : env.sourceExists <;> cases hc : env.copyOk <;> cases hb : env.buildOk <;>
      simp [build_docker_image, hs, hc, hb, h]

/-- Witness for claim C9: the failed-build path and the missing-template
path both end without a Dockerfile in the project directory. -/
theorem dockerfile_cleanup_on_all_paths_witness :
    ((build_docker_image ⟨true, true, false⟩ ⟨false⟩).2).destPresent = false ∧
    ((build_docker_image ⟨false, true, true⟩ ⟨false⟩).2).destPresent = false :=
  ⟨(dockerfile_cleanup_on_all_paths ⟨true, true, false⟩ ⟨false⟩).1 rfl rfl,
   (dockerfile_cleanup_on_all_paths ⟨false, true, true⟩ ⟨false⟩).2 rfl⟩

/-- Claim C10: `detect_framework` is total by construction (it returns a
triple for every input and raises nothing); a `package.json` that cannot be
read or parsed is skipped (first conjunct); when no file matches a known
dependency it returns `("unknown", input path, "mayur-unknown")` (second
conjunct); and every returned project name starts with `"mayur-"` (third
conjunct). -/
theorem detect_framework_skips_and_defaults (path : String) :
    (∀ (p : PkgJson) (rest : List PkgJson), p.parseOk = false →
      detect_framework (p :: rest) path = detect_framework rest path) ∧
    (∀ pkgs : List PkgJson, (∀ p ∈ pkgs, pkgMatches p = false) →
      detect_framework pkgs path = ("unknown", path, "mayur-unknown")) ∧
    (∀ pkgs : List PkgJson, ∃ t, (detect_framework pkgs path).2.2 = "mayur-" ++ t) := by
  refine ⟨fun p rest hp => by simp [detect_framework, hp], ?_, ?_⟩
  · intro pkgs hall
    induction pkgs with
    | nil => rfl
    | cons p rest ih =>
      have hp := hall p (List.mem_cons_self p rest)
      have hrest := fun q hq => hall q (List.mem_cons_of_mem p hq)
      cases hpk : p.parseOk with
      | false => simp [detect_framework, hpk, ih hrest]
      | true =>
        simp [pkgMatches, hpk] at hp
        obtain ⟨⟨⟨⟨h1, h2⟩, h3⟩, h4⟩, h5⟩ := hp
        simp [detect_framework, hpk, h1, h2, h3, h4, h5, ih hrest]
  · intro pkgs
    induction pkgs with
    | nil => exact ⟨"unknown", rfl⟩
    | cons p rest ih =>
      cases hpk : p.parseOk with
      | false => simpa [detect_framework, hpk] using ih
      | true =>
        by_cases h1 : "next" ∈ p.deps
        · exact ⟨p.dirName, by simp [detect_framework, hpk, h1]⟩
        · by_cases h2 : "vite" ∈ p.deps ∨ "vite" ∈ p.devDeps
          · exact ⟨p.dirName, by simp [detect_framework, hpk, h1, h2]⟩
          · rw [not_or] at h2
            by_cases h3 : "react-scripts" ∈ p.deps
            · exact ⟨p.dirName, by simp [detect_framework, hpk, h1, h2.1, h2.2, h3]⟩
            · by_cases h4 : "react" ∈ p.deps
              · exact ⟨p.dirName, by simp [detect_framework, hpk, h1, h2.1, h2.2, h3, h4]⟩
              · simpa [detect_framework, hpk, h1, h2.1, h2.2, h3, h4] using ih

/-- Witness for claim C10: an unreadable file is skipped, a tree with no
matching dependency yields the unknown triple, and a matching tree yields
a `mayur-` name. -/
theorem detect_framework_skips_and_defaults_witness :
    detect_framework [badPkg, nextPkg] "workspace/repo"
      = detect_framework [nextPkg] "workspace/repo" ∧
    detect_framework [badPkg, plainPkg] "workspace/repo"
      = ("unknown", "workspace/repo", "mayur-unknown") ∧
    ∃ t, (detect_framework [nextPkg] "workspace/repo").2.2 = "mayur-" ++ t :=
  ⟨(detect_framework_skips_and_defaults "workspace/repo").1 badPkg [nextPkg] rfl,
   (detect_framework_skips_and_defaults "workspace/repo").2.1 [badPkg, plainPkg]
     (by decide),
   (detect_framework_skips_and_defaults "workspace/repo").2.2 [nextPkg]⟩

end AutoDeploy
